import Mathlib

/-!
Shallow embedding of the Secret Hitler simulator engine
(`secret_hitler_simulator/game.py`, `constants.py`, `player.py`).

Modelling conventions:
* A `Player` is an opaque handle compared by identity; we embed it as `Nat`.
  Python `frozenset[Player]` becomes a duplicate-free `List Nat`, tuples
  become `List`.
* The process-wide Mersenne-Twister state used by `random.shuffle` is
  embedded as a stream of naturals (`List Nat`); `random.shuffle` becomes
  `shuffleWith`, a Fisher-Yates style selection driven by that stream.
  The stream left after consuming one number per selected card plays the
  role of `random.getstate()` after the shuffle.
* Python exceptions are embedded as `Except GameError`.  `PlayerException`
  (raised by the engine around agent calls, caught in `play_game`) becomes
  `GameError.playerExc`; any other exception that the engine does not wrap
  (`IndexError`, `ValueError`, an agent exception escaping outside a
  `try` block) becomes `GameError.uncaught` and is NOT caught by
  `play_game`.
* Agent methods (`Player` subclasses) are oracles supplied as functions of
  the perceived game state; an oracle returning `Except.error` models the
  Python method raising.
-/

namespace SecretHitler

inductive Allegiance where
  | LIBERAL
  | FASCIST
deriving DecidableEq, Repr

inductive Policy where
  | LIBERAL
  | FASCIST
deriving DecidableEq, Repr

/-- `PARTY_MEMBERSHIP_BY_PLAYERS` from `constants.py`: number of
(liberals, fascists) keyed by player count; `none` models a `KeyError`
for an unsupported player count. -/
def PARTY_MEMBERSHIP_BY_PLAYERS : Nat → Option (Nat × Nat)
  | 5 => some (3, 2)
  | 6 => some (4, 2)
  | 7 => some (4, 3)
  | 8 => some (5, 3)
  | 9 => some (5, 4)
  | 10 => some (6, 4)
  | _ => none

/-- Per-round snapshot data: the fields of the `RoundRecord` dataclass in
`game.py` except the recursive `_previous_record` link.  Fields that store
raw agent-returned ids keep the Python `int` type (`Int`); fields the
engine fills with `players.index(...)` results are `Nat`. -/
structure RData where
  number_of_players : Nat
  fascists : List Nat
  hitler : Nat
  president : Option Nat := none
  declared_election_intent : Option (List (Nat × List (Nat × Option Bool))) := none
  chancellor : Option Int := none
  election_results : Option (List (Nat × Bool)) := none
  successful_election : Option Bool := none
  num_fascist_policies_for_president : Option Nat := none
  policy_discarded_by_president : Option Policy := none
  num_fascist_policies_for_chancellor : Option Nat := none
  policy_discarded_by_chancellor : Option Policy := none
  chancellor_veto : Option Bool := none
  president_veto : Option Bool := none
  president_claimed_number_of_fascist_cards_drawn : Option Int := none
  president_claimed_discarded_policy : Option Policy := none
  chancellor_claimed_discarded_policy : Option Policy := none
  anarchy_occured : Option Bool := none
  selected_policy : Option Policy := none
  investigated_player : Option Int := none
  investigated_player_identity : Option Allegiance := none
  claimed_investigated_player_allegiance : Option Allegiance := none
  special_election_next_president : Option Int := none
  executed_player : Option Int := none
  anarchy_result : Option Policy := none
  your_player_id : Option Nat := none
deriving DecidableEq, Repr

/-- The `RoundRecord` dataclass: snapshot data plus the `_previous_record`
link to the preceding round's record. -/
inductive RoundRecord where
  | mk (data : RData) (prevRecord : Option RoundRecord)

def RoundRecord.data : RoundRecord → RData
  | .mk d _ => d

def RoundRecord.prevRecord : RoundRecord → Option RoundRecord
  | .mk _ p => p

/-- Modify the snapshot data of a record, keeping its predecessor link
(models a Python attribute assignment on the record object). -/
def RoundRecord.withData (r : RoundRecord) (d : RData) : RoundRecord :=
  .mk d r.prevRecord

/-- The mutable attributes of the `Game` object (set in `Game.__init__`,
lines 68-88 of `game.py`). -/
structure GameState where
  liberals : List Nat
  fascists : List Nat
  hitler : Nat
  policy_deck : List Policy
  presidential_order : List Nat
  players : List Nat
  round_history : List RoundRecord
  executed_players : List Nat
  special_election_next_president : Option Nat
  previous_government : List Nat
  anarchy_counter : Nat
  liberal_policies_passed : Nat
  fascist_policies_passed : Nat
  shot_hitler : Bool
  elected_hitler : Bool
  random_number_generator : List Nat

/-- `Game.__init__` after validation: the initial mutable state
(lines 68-88).  `rng` is the process-wide random state captured by
`random.getstate()` at construction. -/
def gameInit (liberals fascists : List Nat) (hitler : Nat)
    (policy_deck : List Policy) (presidential_order : List Nat)
    (rng : List Nat) : GameState :=
  { liberals := liberals
    fascists := fascists
    hitler := hitler
    policy_deck := policy_deck
    presidential_order := presidential_order
    players := presidential_order
    round_history := []
    executed_players := []
    special_election_next_president := none
    previous_government := []
    anarchy_counter := 0
    liberal_policies_passed := 0
    fascist_policies_passed := 0
    shot_hitler := false
    elected_hitler := false
    random_number_generator := rng }

/-- The validation block of `Game.__init__` (lines 38-66 of `game.py`),
checked in source order; the result is `Except.error msg` when the Python
code raises (`ValueError`, or `KeyError` from the membership table). -/
def gameInitValidate (liberals fascists : List Nat) (hitler : Nat)
    (presidential_order : List Nat) : Except String Unit :=
  let number_players := presidential_order.length
  if presidential_order.any
      (fun p => ¬ (p ∈ liberals ∨ p ∈ fascists ∨ p = hitler)) then
    .error "Player does not have an assigned role."
  else if ¬ liberals.all (fun p => p ∈ presidential_order) then
    .error "Not every liberal player is in presidential order."
  else if ¬ fascists.all (fun p => p ∈ presidential_order) then
    .error "Not every fascist player is in presidential order."
  else if hitler ∉ presidential_order then
    .error "Hitler is not in presidential order"
  else
    match PARTY_MEMBERSHIP_BY_PLAYERS number_players with
    | none => .error "KeyError"
    | some counts =>
      if liberals.length ≠ counts.1 then
        .error "Invalid number of liberals."
      else if fascists.length ≠ counts.2 then
        .error "Invalid number of fascists."
      else
        .ok ()

/-- `random.shuffle` on a policy list, driven by a stream of naturals:
each step picks the element at position `r % length` and recurses on the
remainder (a selection-based shuffle; any permutation is reachable, and
the result depends only on the stream and the input list). -/
def shuffleWith (rs : List Nat) (l : List Policy) : List Policy :=
  match rs, l with
  | _, [] => []
  | [], x :: xs => x :: xs
  | r :: rs, x :: xs =>
    let i := r % (x :: xs).length
    let rest := (x :: xs).take i ++ (x :: xs).drop (i + 1)
    (x :: xs).getD i x :: shuffleWith rs rest
termination_by l.length
decreasing_by
  have h : r % (x :: xs).length < (x :: xs).length :=
    Nat.mod_lt _ (by simp)
  simp only [List.length_append, List.length_take, List.length_drop,
    List.length_cons] at h ⊢
  omega

/-- `Game.update_policy_deck` (lines 666-675): when fewer than 3 cards
remain, rebuild the deck as `(11 - fascist_tally)` fascist plus
`(6 - liberal_tally)` liberal cards, restore the saved random state,
shuffle, and save the advanced random state (one stream element is
consumed per card). -/
def update_policy_deck (g : GameState) : GameState :=
  if g.policy_deck.length < 3 then
    let policy_deck_list :=
      List.replicate (11 - g.fascist_policies_passed) Policy.FASCIST ++
        List.replicate (6 - g.liberal_policies_passed) Policy.LIBERAL
    { g with
      policy_deck := shuffleWith g.random_number_generator policy_deck_list
      random_number_generator :=
        g.random_number_generator.drop policy_deck_list.length }
  else
    g

/-- Selecting the element at a valid position and keeping the rest is a
permutation of the original list. -/
theorem pick_perm (l : List Policy) (i : Nat) (d : Policy)
    (h : i < l.length) :
    (l.getD i d :: (l.take i ++ l.drop (i + 1))).Perm l := by
  have hd : l.getD i d = l[i] := List.getD_eq_getElem l d h
  have hsplit : l.take i ++ l.drop i = l := List.take_append_drop i l
  have hdrop : l.drop i = l[i] :: l.drop (i + 1) :=
    List.drop_eq_getElem_cons h
  have h1 : (l.getD i d :: (l.take i ++ l.drop (i + 1))).Perm
      (l.take i ++ l[i] :: l.drop (i + 1)) := by
    rw [hd]; exact List.perm_middle.symm
  have h2 : l.take i ++ l[i] :: l.drop (i + 1) = l := by
    rw [← hdrop, hsplit]
  rw [h2] at h1
  exact h1

/-- `shuffleWith` permutes its input, whatever the random stream is. -/
theorem shuffleWith_perm (rs : List Nat) (l : List Policy) :
    (shuffleWith rs l).Perm l := by
  match rs, l with
  | rs, [] => simp [shuffleWith]
  | [], x :: xs => simp [shuffleWith]
  | r :: rs, x :: xs =>
    have hlen : r % (x :: xs).length < (x :: xs).length :=
      Nat.mod_lt _ (by simp)
    have hrest := shuffleWith_perm rs
      ((x :: xs).take (r % (x :: xs).length) ++
        (x :: xs).drop (r % (x :: xs).length + 1))
    simp only [shuffleWith]
    exact (hrest.cons _).trans (pick_perm _ _ _ hlen)
termination_by l.length
decreasing_by
  have h : r % (x :: xs).length < (x :: xs).length :=
    Nat.mod_lt _ (by simp)
  simp only [List.length_append, List.length_take, List.length_drop,
    List.length_cons] at h ⊢
  omega

/-- Exceptions during play.  `playerExc` embeds `PlayerException`
(attributed to a player, caught by `Game.play_game`); `uncaught` embeds
every other exception (`IndexError`, `ValueError`, an agent exception
escaping outside a `try` block), which `play_game` does not catch. -/
inductive GameError where
  | playerExc (player : Nat) (message : String)
  | uncaught (message : String)
deriving DecidableEq, Repr

/-- The agent decision methods of the `Player` abstract class
(`player.py`), as oracles over the perceived game state; `Except.error`
models the method raising. -/
structure Agents where
  select_chancellor : List RoundRecord → Except String Int
  intent_to_vote_on_government : List RoundRecord → Except String (Option Bool)
  vote_on_government : List RoundRecord → Except String Bool
  select_policy_to_discard_as_president : List RoundRecord → Except String Policy
  select_policy_to_discard_as_chancellor : List RoundRecord → Except String Policy
  veto_legislation : List RoundRecord → Except String Bool
  claimed_policy_to_discard_as_president : List RoundRecord → Except String (Int × Policy)
  claimed_policy_to_discard_as_chancellor : List RoundRecord → Except String Policy
  select_player_to_investigate : List RoundRecord → Except String Int
  claimed_player_investigation_result : List RoundRecord → Except String Allegiance
  select_special_election_president : List RoundRecord → Except String Int
  select_player_to_execute : List RoundRecord → Except String Int

/-- `Game.get_player_percieved_game_state` (lines 694-716): a deep copy
of every record of the round history, with `your_player_id` set to the
requesting player's index on each copy.  (The source's inner loop over
`fields(round_state)` only rebinds a local and has no effect.) -/
def get_player_percieved_game_state (g : GameState) (player : Nat) :
    List RoundRecord :=
  g.round_history.map (fun r =>
    r.withData { r.data with your_player_id := some (g.players.indexOf player) })

/-- Python mutation of `self.round_history[-1]`: rewrite the data of the
last record, keeping everything else.  (The engine only ever mutates the
last record; on an empty history the source would raise, but it is never
called that way.) -/
def modifyLast (f : RData → RData) : List RoundRecord → List RoundRecord
  | [] => []
  | [r] => [r.withData (f r.data)]
  | r :: rs => r :: modifyLast f rs

/-- Apply a `self.round_history[-1].field = value` style update. -/
def setLast (g : GameState) (f : RData → RData) : GameState :=
  { g with round_history := modifyLast f g.round_history }

/-- `Game.update_round_history` (lines 167-179): append a fresh record
whose `_previous_record` is the previous last record. -/
def update_round_history (g : GameState) : GameState :=
  { g with
    round_history := g.round_history ++
      [RoundRecord.mk
        { number_of_players := g.players.length
          fascists := g.fascists.map (fun p => g.players.indexOf p)
          hitler := g.players.indexOf g.hitler }
        g.round_history.getLast?] }

/-- `Game.determine_next_president` (lines 181-197). -/
def determine_next_president (g : GameState) :
    Except GameError (GameState × Nat × Nat) :=
  match g.special_election_next_president with
  | some president =>
    let g := { g with special_election_next_president := none }
    let president_id := g.players.indexOf president
    .ok (setLast g (fun d => { d with president := some president_id }),
      president, president_id)
  | none =>
    match g.presidential_order with
    | [] => .error (.uncaught "IndexError: presidential_order is empty")
    | president :: rest =>
      let g := { g with presidential_order := rest ++ [president] }
      let president_id := g.players.indexOf president
      .ok (setLast g (fun d => { d with president := some president_id }),
        president, president_id)

/-- The skip condition of the outer loop of
`Game.solicit_intent_to_vote` (lines 213-220): executed players, the
president, and, when more than 5 players remain in the rotation, members
of `previous_government` are not offered as chancellor candidates. -/
def intentSkip (g : GameState) (president : Nat) (pc : Nat) : Prop :=
  pc ∈ g.executed_players ∨ pc = president ∨
    (pc ∈ g.previous_government ∧ 5 < g.presidential_order.length)

instance (g : GameState) (president pc : Nat) :
    Decidable (intentSkip g president pc) := by
  unfold intentSkip; infer_instance

/-- Inner loop of `Game.solicit_intent_to_vote`: ask every living player
for a declared intent (the agent call is not inside a `try` block, so an
agent exception propagates unwrapped). -/
def solicitInner (agents : Nat → Agents) (g : GameState) :
    List Nat → Except GameError (List (Nat × Option Bool))
  | [] => .ok []
  | p :: rest =>
    if p ∈ g.executed_players then solicitInner agents g rest
    else
      match (agents p).intent_to_vote_on_government
          (get_player_percieved_game_state g p) with
      | .error m => .error (.uncaught m)
      | .ok intent => do
        let restRes ← solicitInner agents g rest
        .ok ((g.players.indexOf p, intent) :: restRes)

/-- Outer loop of `Game.solicit_intent_to_vote`: one entry per
non-skipped proposed chancellor. -/
def solicitOuter (agents : Nat → Agents) (g : GameState) (president : Nat) :
    List Nat → Except GameError (List (Nat × List (Nat × Option Bool)))
  | [] => .ok []
  | pc :: rest =>
    if intentSkip g president pc then solicitOuter agents g president rest
    else do
      let inner ← solicitInner agents g g.players
      let restRes ← solicitOuter agents g president rest
      .ok ((g.players.indexOf pc, inner) :: restRes)

/-- `Game.solicit_intent_to_vote` (lines 199-232). -/
def solicit_intent_to_vote (agents : Nat → Agents) (g : GameState)
    (president : Nat) : Except GameError GameState := do
  let declared ← solicitOuter agents g president g.players
  .ok (setLast g (fun d => { d with declared_election_intent := some declared }))

/-- Python list indexing with an `int` index: negative indices wrap
around; out-of-range raises `IndexError`. -/
def pyIndex (l : List Nat) (i : Int) : Except String Nat :=
  let n : Int := l.length
  let j := if i < 0 then i + n else i
  if h : 0 ≤ j ∧ j < n then
    .ok (l.get ⟨j.toNat, by omega⟩)
  else
    .error "IndexError: list index out of range"

/-- `Game.select_chancellor` (lines 234-247).  Only the agent call is
inside the `try` block; the record write and the `self.players[...]`
lookup are outside it, so an out-of-range id raises an `IndexError` that
is not wrapped as a `PlayerException`. -/
def select_chancellor (agents : Nat → Agents) (g : GameState)
    (president : Nat) : Except GameError (GameState × Nat × Int) :=
  let president_perspective := get_player_percieved_game_state g president
  match (agents president).select_chancellor president_perspective with
  | .error _ =>
    .error (.playerExc president "Exception while selecting Chancellor")
  | .ok chancellor_id =>
    let g := setLast g (fun d => { d with chancellor := some chancellor_id })
    match pyIndex g.players chancellor_id with
    | .error m => .error (.uncaught m)
    | .ok chancellor => .ok (g, chancellor, chancellor_id)

/-- Vote-collection loop of `Game.hold_election` (lines 250-258): every
player not yet executed casts a binding vote (the agent call is not
wrapped, so an exception propagates unwrapped). -/
def holdElectionVotes (agents : Nat → Agents) (g : GameState) :
    List Nat → Except GameError (List (Nat × Bool))
  | [] => .ok []
  | p :: rest =>
    if p ∈ g.executed_players then holdElectionVotes agents g rest
    else
      match (agents p).vote_on_government
          (get_player_percieved_game_state g p) with
      | .error m => .error (.uncaught m)
      | .ok v => do
        let restRes ← holdElectionVotes agents g rest
        .ok ((g.players.indexOf p, v) :: restRes)

/-- `Game.hold_election` (lines 249-262).  The Python success test
`sum(votes) > len(self.players) / 2` over integers `sum ≤ 10` is exactly
`2 * sum > len(self.players)`. -/
def hold_election (agents : Nat → Agents) (g : GameState) :
    Except GameError (GameState × Bool) := do
  let election_results ← holdElectionVotes agents g g.players
  let yes := (election_results.map Prod.snd).count true
  let successful_election : Bool := decide (g.players.length < 2 * yes)
  let g := setLast g (fun d => { d with election_results := some election_results })
  let g := setLast g (fun d => { d with successful_election := some successful_election })
  .ok (g, successful_election)

/-- The president's discard choice (lines 283-314 of `game.py`): forced
liberal on 0 fascist cards, an agent choice on 1 or 2, forced fascist on
3, and an engine `ValueError` otherwise. -/
def president_discard_choice (agents : Nat → Agents) (g : GameState)
    (president : Nat) (num_fascist : Nat) : Except GameError Policy :=
  if num_fascist = 0 then
    .ok Policy.LIBERAL
  else if num_fascist = 1 ∨ num_fascist = 2 then
    match (agents president).select_policy_to_discard_as_president
        (get_player_percieved_game_state g president) with
    | .error _ => .error (.playerExc president
        "Exception while selecting policies as President")
    | .ok p => .ok p
  else if num_fascist = 3 then
    .ok Policy.FASCIST
  else
    .error (.uncaught "Invalid number of fascist policies handed to President.")

/-- The chancellor's discard choice and the surviving policy
(lines 326-363 of `game.py`).  The Python `match` has no case for values
other than 0, 1, 2; falling through leaves the local unbound
(`NameError`). -/
def chancellor_discard_choice (agents : Nat → Agents) (g : GameState)
    (chancellor : Nat) (num_fascist : Nat) :
    Except GameError (Policy × Policy) :=
  if num_fascist = 0 then
    .ok (Policy.LIBERAL, Policy.LIBERAL)
  else if num_fascist = 1 then
    match (agents chancellor).select_policy_to_discard_as_chancellor
        (get_player_percieved_game_state g chancellor) with
    | .error _ => .error (.playerExc chancellor
        "Exception while selecting policies as Chancellor.")
    | .ok p =>
      .ok (p, if p = Policy.FASCIST then Policy.LIBERAL else Policy.FASCIST)
  else if num_fascist = 2 then
    .ok (Policy.FASCIST, Policy.FASCIST)
  else
    .error (.uncaught "NameError: policy_discarded_by_chancellor")

/-- The veto window (lines 367-410 of `game.py`): only active when the
fascist tally is at least 5; the chancellor declares, and the veto takes
effect only if the president agrees. -/
def veto_phase (agents : Nat → Agents) (g : GameState)
    (president chancellor : Nat) : Except GameError (GameState × Bool) :=
  if 5 ≤ g.fascist_policies_passed then
    match (agents chancellor).veto_legislation
        (get_player_percieved_game_state g chancellor) with
    | .error _ => .error (.playerExc chancellor
        "Exception while vetoing legislation.")
    | .ok chancellor_veto =>
      let g := setLast g (fun d =>
        { d with chancellor_veto := some chancellor_veto })
      if chancellor_veto then
        match (agents president).veto_legislation
            (get_player_percieved_game_state g president) with
        | .error _ => .error (.playerExc president
            "Exception while vetoing legislation.")
        | .ok president_veto =>
          let g := setLast g (fun d =>
            { d with president_veto := some president_veto })
          .ok (g, president_veto)
      else
        .ok (g, false)
  else
    .ok (g, false)

/-- The president's public claim (lines 426-456 of `game.py`): a claimed
fascist-card count that must be in 0..3 and a claimed discarded policy. -/
def president_claim_phase (agents : Nat → Agents) (president : Nat)
    (view : List RoundRecord) : Except GameError (Int × Policy) :=
  match (agents president).claimed_policy_to_discard_as_president view with
  | .error _ => .error (.playerExc president
      "Exception while claiming policies as President.")
  | .ok (cnt, pol) =>
    if cnt = 0 ∨ cnt = 1 ∨ cnt = 2 ∨ cnt = 3 then .ok (cnt, pol)
    else .error (.playerExc president
      "Claimed an invalid number of fascist cards")

/-- The chancellor's public claim (lines 457-480 of `game.py`). -/
def chancellor_claim_phase (agents : Nat → Agents) (chancellor : Nat)
    (view : List RoundRecord) : Except GameError Policy :=
  match (agents chancellor).claimed_policy_to_discard_as_chancellor view with
  | .error _ => .error (.playerExc chancellor
      "Exception while claiming policies as Chancellor.")
  | .ok p => .ok p

/-- `Game.hold_legislation_session` (lines 264-490), with
`draw_legislative_session_policies` (lines 650-658) inlined at the top
and the phases above factored out.  Returns the updated state and
`selected_policy` — note the source returns `selected_policy` even when
the session was vetoed. -/
def hold_legislation_session (agents : Nat → Agents) (g : GameState)
    (president chancellor : Nat) : Except GameError (GameState × Policy) := do
  -- Draw policies
  let legislative_session_policies := g.policy_deck.take 3
  let g := { g with policy_deck := g.policy_deck.drop 3 }
  let num_fascist_policies_for_president :=
    legislative_session_policies.count Policy.FASCIST
  let g := setLast g (fun d =>
    { d with num_fascist_policies_for_president := some num_fascist_policies_for_president })
  -- The president selects a policy to discard
  let policy_discarded_by_president ←
    president_discard_choice agents g president num_fascist_policies_for_president
  let num_fascist_policies_for_chancellor :=
    if policy_discarded_by_president = Policy.LIBERAL then
      num_fascist_policies_for_president
    else
      num_fascist_policies_for_president - 1
  let g := setLast g (fun d =>
    { d with policy_discarded_by_president := some policy_discarded_by_president })
  let g := setLast g (fun d =>
    { d with num_fascist_policies_for_chancellor := some num_fascist_policies_for_chancellor })
  -- The chancellor selects a policy
  let chancellorChoice ←
    chancellor_discard_choice agents g chancellor num_fascist_policies_for_chancellor
  let selected_policy := chancellorChoice.2
  let g := setLast g (fun d =>
    { d with policy_discarded_by_chancellor := some chancellorChoice.1 })
  -- Veto
  let vetoRes ← veto_phase agents g president chancellor
  let veto := vetoRes.2
  -- Enact the policy
  let g :=
    if veto then vetoRes.1
    else
      let g :=
        match selected_policy with
        | Policy.LIBERAL =>
          { vetoRes.1 with liberal_policies_passed := vetoRes.1.liberal_policies_passed + 1 }
        | Policy.FASCIST =>
          { vetoRes.1 with fascist_policies_passed := vetoRes.1.fascist_policies_passed + 1 }
      setLast g (fun d => { d with selected_policy := some selected_policy })
  -- Claim policies
  -- Neither president or chancellor get to know what the other claims
  -- before they claim
  let president_perceptive := get_player_percieved_game_state g president
  let chancellor_perceptive := get_player_percieved_game_state g chancellor
  let claimed ← president_claim_phase agents president president_perceptive
  let chancellor_claimed_discarded_policy ←
    chancellor_claim_phase agents chancellor chancellor_perceptive
  let g := setLast g (fun d =>
    { d with president_claimed_number_of_fascist_cards_drawn := some claimed.1 })
  let g := setLast g (fun d =>
    { d with president_claimed_discarded_policy := some claimed.2 })
  let g := setLast g (fun d =>
    { d with chancellor_claimed_discarded_policy := some chancellor_claimed_discarded_policy })
  pure (g, selected_policy)

/-- The agent-supplied player-id pattern shared by the three executive
actions (e.g. lines 515-533 of `game.py`): the agent call and the range
check `0 <= id <= len(players) - 1` sit inside one `try` block, so both
an exception and an out-of-range id become a `PlayerException`
attributed to the president. -/
def checked_player_id (x : Except String Int) (president : Nat) (n : Nat)
    (msg : String) : Except GameError Int :=
  match x with
  | .error _ => .error (.playerExc president msg)
  | .ok i =>
    if 0 ≤ i ∧ i ≤ (n : Int) - 1 then .ok i
    else .error (.playerExc president msg)

/-- An agent call made outside any `try` block: an exception propagates
unwrapped (and is therefore not caught by `Game.play_game`). -/
def unwrapped {α : Type} (x : Except String α) : Except GameError α :=
  match x with
  | .error m => .error (.uncaught m)
  | .ok a => .ok a

/-- Allegiance lookup for an investigated player (lines 535-542). -/
def identify_player (g : GameState) (p : Nat) : Except GameError Allegiance :=
  if p ∈ g.liberals then .ok Allegiance.LIBERAL
  else if p ∈ g.fascists then .ok Allegiance.FASCIST
  else .error (.uncaught "Unable to determine allegiance of player")

/-- `Game.investigate_player` (lines 512-554).  The final agent call
(`claimed_player_investigation_result`) is NOT inside a `try` block in
the source, so an exception there propagates unwrapped; it also receives
the perceived state built at the top of the method. -/
def investigate_player (agents : Nat → Agents) (g : GameState)
    (president : Nat) : Except GameError GameState := do
  let president_perceptive := get_player_percieved_game_state g president
  let investigated_player_id ←
    checked_player_id
      ((agents president).select_player_to_investigate president_perceptive)
      president g.players.length
      "Exception while investigating as President."
  let investigated_player := g.players.getD investigated_player_id.toNat 0
  let investigated_player_identity ← identify_player g investigated_player
  let g := setLast g (fun d =>
    { d with investigated_player := some investigated_player_id })
  let g := setLast g (fun d =>
    { d with investigated_player_identity := some investigated_player_identity })
  let claimed_investigated_player_allegiance ←
    unwrapped
      ((agents president).claimed_player_investigation_result
        president_perceptive)
  pure (setLast g (fun d =>
    { d with claimed_investigated_player_allegiance := some claimed_investigated_player_allegiance }))

/-- `Game.declare_special_election` (lines 556-599). -/
def declare_special_election (agents : Nat → Agents) (g : GameState)
    (president : Nat) : Except GameError GameState := do
  let president_perceptive := get_player_percieved_game_state g president
  let special_election_president_id ←
    checked_player_id
      ((agents president).select_special_election_president
        president_perceptive)
      president g.players.length
      "Exception while calling special election as President."
  let special_election_president :=
    g.players.getD special_election_president_id.toNat 0
  if special_election_president = president then
    throw (GameError.playerExc president
      "Selected themselves as President for special election.")
  else if special_election_president ∈ g.executed_players then
    throw (GameError.playerExc president
      "Selected a corpse as President for special election.")
  else
    let g := { g with
      special_election_next_president := some special_election_president }
    pure (setLast g (fun d =>
      { d with special_election_next_president := some special_election_president_id }))

/-- `Game.execute_player` (lines 601-637).  Note: the executed player is
removed from the rotation and recorded, but `shot_hitler` is NOT set
even when the executed player is Hitler. -/
def execute_player (agents : Nat → Agents) (g : GameState)
    (president : Nat) : Except GameError GameState := do
  let president_perceptive := get_player_percieved_game_state g president
  let executed_player_id ←
    checked_player_id
      ((agents president).select_player_to_execute president_perceptive)
      president g.players.length
      "Exception while executing as President."
  let executed_player := g.players.getD executed_player_id.toNat 0
  if executed_player ∈ g.executed_players then
    throw (GameError.playerExc president "Selected a corpse for execution.")
  else
    let g := { g with
      executed_players := g.executed_players ++ [executed_player]
      presidential_order :=
        g.presidential_order.filter (fun p => p ≠ executed_player) }
    pure (setLast g (fun d =>
      { d with executed_player := some executed_player_id }))

/-- `Game.executive_action` (lines 492-510): dispatch on the current
fascist tally. -/
def executive_action (agents : Nat → Agents) (g : GameState)
    (president : Nat) : Except GameError GameState :=
  if g.fascist_policies_passed = 1 ∨ g.fascist_policies_passed = 2 then
    investigate_player agents g president
  else if g.fascist_policies_passed = 3 then
    declare_special_election agents g president
  else if g.fascist_policies_passed = 4 ∨ g.fascist_policies_passed = 5 then
    execute_player agents g president
  else if g.fascist_policies_passed = 6 then
    pure g
  else
    throw (GameError.uncaught "Unknown number of Fascist policies passed")

/-- `Game.execute_anarchy` (lines 639-648) with `draw_anarchy_policy`
(lines 660-664) inlined: draw the top card and apply it to the matching
tally, with no agent call. -/
def execute_anarchy (g : GameState) : Except GameError GameState :=
  match g.policy_deck with
  | [] => .error (.uncaught "IndexError: policy deck is empty")
  | next_policy :: rest =>
    let g := { g with policy_deck := rest }
    match next_policy with
    | Policy.LIBERAL =>
      .ok (setLast
        { g with liberal_policies_passed := g.liberal_policies_passed + 1 }
        (fun d => { d with anarchy_result := some Policy.LIBERAL }))
    | Policy.FASCIST =>
      .ok (setLast
        { g with fascist_policies_passed := g.fascist_policies_passed + 1 }
        (fun d => { d with anarchy_result := some Policy.FASCIST }))

/-- `Game.determine_if_winner` (lines 677-692). -/
def determine_if_winner (g : GameState) : Option Allegiance × Option String :=
  if g.liberal_policies_passed = 5 then
    (some Allegiance.LIBERAL, some "Passed 5 Liberal Policies")
  else if g.shot_hitler then
    (some Allegiance.LIBERAL, some "Shot Hitler")
  else if g.fascist_policies_passed = 6 then
    (some Allegiance.FASCIST, some "Passed 6 Fascist Policies")
  else if g.elected_hitler then
    (some Allegiance.FASCIST, some "Elected Hitler")
  else
    (none, none)

/-- `Game.play_round` (lines 124-165). -/
def play_round (agents : Nat → Agents) (g : GameState) :
    Except GameError GameState := do
  let g := update_policy_deck g
  let g := update_round_history g
  let (g, president, _president_id) ← determine_next_president g
  let g ← solicit_intent_to_vote agents g president
  let (g, chancellor, _chancellor_id) ← select_chancellor agents g president
  let (g, successful_election) ← hold_election agents g
  if successful_election then
    if 3 ≤ g.fascist_policies_passed ∧ chancellor = g.hitler then
      pure { g with elected_hitler := true }
    else do
      let (g, passed_policy) ←
        hold_legislation_session agents g president chancellor
      if passed_policy = Policy.FASCIST then
        executive_action agents g president
      else
        pure g
  else
    let g := { g with anarchy_counter := g.anarchy_counter + 1 }
    if g.anarchy_counter = 3 then execute_anarchy g
    else pure g

/-- The `while` loop of `Game.play_game` (lines 108-111), with explicit
fuel; `.ok none` means the fuel ran out with the game still undecided. -/
def game_loop (agents : Nat → Agents) :
    Nat → GameState → Except GameError (Option (Option Allegiance × Option String))
  | 0, _ => .ok none
  | fuel + 1, g =>
    if (determine_if_winner g).1 = none then
      match play_round agents g with
      | .error e => .error e
      | .ok g2 => game_loop agents fuel g2
    else
      .ok (some (determine_if_winner g))

/-- `Game.play_game` (lines 101-122): run rounds until a winner exists;
a `PlayerException` is converted into a win for the opposing team.  When
the offending player is on neither team the source builds a `ValueError`
but does not raise it, so the method returns Python `None`; we model
that fall-through as `some (none, none)`.  Exceptions other than
`PlayerException` are not caught. -/
def play_game (agents : Nat → Agents) (fuel : Nat) (g : GameState) :
    Except GameError (Option (Option Allegiance × Option String)) :=
  match game_loop agents fuel g with
  | .ok r => .ok r
  | .error (.playerExc p m) =>
    if p ∈ g.liberals then .ok (some (some Allegiance.FASCIST, some m))
    else if p ∈ g.fascists then .ok (some (some Allegiance.LIBERAL, some m))
    else .ok (some (none, none))
  | .error (.uncaught m) => .error (.uncaught m)

/-! ## Claim theorems -/

/-- Project an `Except`ed game state to an `Option`, for stating
evaluation results over decidable projections. -/
def okState : Except GameError GameState → Option GameState
  | .ok g => some g
  | .error _ => none

instance {ε α : Type} [DecidableEq ε] [DecidableEq α] :
    DecidableEq (Except ε α) := fun x y =>
  match x, y with
  | .ok a, .ok b =>
    if h : a = b then isTrue (by rw [h])
    else isFalse (by intro hc; cases hc; exact h rfl)
  | .error a, .error b =>
    if h : a = b then isTrue (by rw [h])
    else isFalse (by intro hc; cases hc; exact h rfl)
  | .ok _, .error _ => isFalse (by intro hc; cases hc)
  | .error _, .ok _ => isFalse (by intro hc; cases hc)

/-- C10: `Game.__init__` validation accepts a configuration whose
Hitler is in the liberal set (and one where the liberal and fascist sets
overlap while Hitler is in neither); and it rejects exactly the
configurations with a role-less player in the order, a liberal or
fascist outside the order, Hitler outside the order, or a cardinality
mismatch against the membership table (including an unsupported player
count). -/
theorem c10_validation_no_hitler_membership_check :
    (gameInitValidate [0, 1, 2] [3, 4] 0 [0, 1, 2, 3, 4] = .ok () ∧
      0 ∈ [0, 1, 2] ∧ 0 ∉ [3, 4]) ∧
    (gameInitValidate [1, 2, 3] [1, 4] 0 [0, 1, 2, 3, 4] = .ok () ∧
      0 ∉ [1, 2, 3] ∧ 0 ∉ [1, 4] ∧ 1 ∈ [1, 2, 3] ∧ 1 ∈ [1, 4]) ∧
    (∀ (L F : List Nat) (hit : Nat) (P : List Nat),
      gameInitValidate L F hit P = .ok () ↔
        ((∀ p ∈ P, p ∈ L ∨ p ∈ F ∨ p = hit) ∧
          (∀ p ∈ L, p ∈ P) ∧ (∀ p ∈ F, p ∈ P) ∧ hit ∈ P ∧
          ∃ c, PARTY_MEMBERSHIP_BY_PLAYERS P.length = some c ∧
            L.length = c.1 ∧ F.length = c.2)) := by
  refine ⟨by decide, by decide, ?_⟩
  intro L F hit P
  rcases htab : PARTY_MEMBERSHIP_BY_PLAYERS P.length with _ | ⟨nl, nf⟩ <;>
    simp only [gameInitValidate, htab] <;>
    split_ifs <;>
    simp_all [List.any_eq_true, List.all_eq_true] <;>
    (intro p hp; by_cases hL : p ∈ L <;> by_cases hF : p ∈ F <;> tauto)

/-- Witness for C10 at a concrete configuration. -/
theorem c10_validation_witness :
    gameInitValidate [0, 1, 2] [3, 4] 0 [0, 1, 2, 3, 4] = .ok () ↔
      ((∀ p ∈ [0, 1, 2, 3, 4], p ∈ [0, 1, 2] ∨ p ∈ [3, 4] ∨ p = 0) ∧
        (∀ p ∈ [0, 1, 2], p ∈ [0, 1, 2, 3, 4]) ∧
        (∀ p ∈ [3, 4], p ∈ [0, 1, 2, 3, 4]) ∧ 0 ∈ [0, 1, 2, 3, 4] ∧
        ∃ c, PARTY_MEMBERSHIP_BY_PLAYERS ([0, 1, 2, 3, 4] : List Nat).length = some c ∧
          ([0, 1, 2] : List Nat).length = c.1 ∧ ([3, 4] : List Nat).length = c.2) :=
  c10_validation_no_hitler_membership_check.2.2 [0, 1, 2] [3, 4] 0 [0, 1, 2, 3, 4]

/-- C7: when fewer than 3 cards remain, `update_policy_deck` rebuilds the
deck to contain exactly `11 - fascist_tally` fascist and
`6 - liberal_tally` liberal cards (the shuffle permutes the rebuilt
composition); when 3 or more cards remain, the state is unchanged. -/
theorem c7_update_policy_deck_counts (g : GameState) :
    (g.policy_deck.length < 3 →
      (update_policy_deck g).policy_deck.count Policy.FASCIST =
          11 - g.fascist_policies_passed ∧
        (update_policy_deck g).policy_deck.count Policy.LIBERAL =
          6 - g.liberal_policies_passed) ∧
    (3 ≤ g.policy_deck.length → update_policy_deck g = g) := by
  constructor
  · intro h
    have hperm := shuffleWith_perm g.random_number_generator
      (List.replicate (11 - g.fascist_policies_passed) Policy.FASCIST ++
        List.replicate (6 - g.liberal_policies_passed) Policy.LIBERAL)
    unfold update_policy_deck
    rw [if_pos h]
    refine ⟨?_, ?_⟩ <;>
      simp [hperm.count_eq, List.count_replicate]
  · intro h
    unfold update_policy_deck
    rw [if_neg (by omega)]

/-- Witness for C7: a freshly constructed game with a 2-card deck. -/
theorem c7_update_policy_deck_counts_witness :
    (update_policy_deck (gameInit [0, 1, 2] [3, 4] 0
        [Policy.FASCIST, Policy.LIBERAL] [0, 1, 2, 3, 4]
        [5, 3, 2, 8, 1, 0, 4, 9, 7, 6, 10, 12, 11, 14, 13, 16, 15])).policy_deck.count
        Policy.FASCIST = 11 ∧
    (update_policy_deck (gameInit [0, 1, 2] [3, 4] 0
        [Policy.FASCIST, Policy.LIBERAL] [0, 1, 2, 3, 4]
        [5, 3, 2, 8, 1, 0, 4, 9, 7, 6, 10, 12, 11, 14, 13, 16, 15])).policy_deck.count
        Policy.LIBERAL = 6 :=
  (c7_update_policy_deck_counts _).1 (by decide)

/-- `Game.update_policy_deck` threading the process-wide random state
explicitly: on a rebuild, `random.setstate(self.random_number_generator)`
discards whatever state agents left the process RNG in, the shuffle
advances it, and `random.getstate()` stores the advanced state (which is
also the process state afterwards); otherwise the process state is left
alone. -/
def update_policy_deck_global (g : GameState) (globalRng : List Nat) :
    GameState × List Nat :=
  if g.policy_deck.length < 3 then
    let policy_deck_list :=
      List.replicate (11 - g.fascist_policies_passed) Policy.FASCIST ++
        List.replicate (6 - g.liberal_policies_passed) Policy.LIBERAL
    let newSaved := g.random_number_generator.drop policy_deck_list.length
    ({ g with
        policy_deck := shuffleWith g.random_number_generator policy_deck_list
        random_number_generator := newSaved },
      newSaved)
  else
    (g, globalRng)

/-- A run of rounds as seen by the deck: each round an agent consumes or
perturbs the process RNG arbitrarily (`perturb`), the deck is rebuilt if
needed, and some number of cards is drawn.  Returns the deck contents at
the start of each round. -/
def deckRun : List ((List Nat → List Nat) × Nat) → GameState → List Nat →
    List (List Policy)
  | [], _, _ => []
  | (perturb, draws) :: rest, g, globalRng =>
    let res := update_policy_deck_global g (perturb globalRng)
    res.1.policy_deck ::
      deckRun rest { res.1 with policy_deck := res.1.policy_deck.drop draws } res.2

/-- The state component of `update_policy_deck_global` ignores the
process RNG and agrees with `update_policy_deck`. -/
theorem update_policy_deck_global_fst (g : GameState) (r : List Nat) :
    (update_policy_deck_global g r).1 = update_policy_deck g := by
  unfold update_policy_deck_global update_policy_deck
  split_ifs <;> rfl

/-- C8: the deck sequence is independent of agent-consumed randomness —
two runs from the same constructed state, drawing the same number of
cards each round but with arbitrary (and different) agent perturbations
of the process RNG and arbitrary process-RNG start states, produce the
identical deck sequence, because reshuffles use only the saved dedicated
stream. -/
theorem c8_deck_independent_of_agent_randomness
    (ps qs : List ((List Nat → List Nat) × Nat)) (g : GameState)
    (r1 r2 : List Nat) (h : ps.map Prod.snd = qs.map Prod.snd) :
    deckRun ps g r1 = deckRun qs g r2 := by
  induction ps generalizing qs g r1 r2 with
  | nil =>
    cases qs with
    | nil => rfl
    | cons q qs => simp at h
  | cons p ps ih =>
    cases qs with
    | nil => simp at h
    | cons q qs =>
      simp only [List.map_cons, List.cons.injEq] at h
      obtain ⟨hdraw, htail⟩ := h
      obtain ⟨p1, p2⟩ := p
      obtain ⟨q1, q2⟩ := q
      simp only at hdraw
      subst hdraw
      simp only [deckRun, update_policy_deck_global_fst]
      exact congrArg _ (ih qs _ _ _ htail)

/-- Witness for C8: two perturbation schedules over three rounds. -/
theorem c8_deck_independent_witness :
    deckRun [(fun r => r.drop 2, 3), (fun _ => [], 3)]
        (gameInit [0, 1, 2] [3, 4] 0 [Policy.FASCIST, Policy.LIBERAL]
          [0, 1, 2, 3, 4] [5, 3, 2, 8, 1, 0, 4, 9, 7, 6, 10, 12, 11, 14, 13, 16, 15])
        [9, 9, 9] =
      deckRun [(fun r => 7 :: r, 3), (id, 3)]
        (gameInit [0, 1, 2] [3, 4] 0 [Policy.FASCIST, Policy.LIBERAL]
          [0, 1, 2, 3, 4] [5, 3, 2, 8, 1, 0, 4, 9, 7, 6, 10, 12, 11, 14, 13, 16, 15])
        [] :=
  c8_deck_independent_of_agent_randomness _ _ _ _ _ (by decide)

/-! ### Frame infrastructure: fields the round never reassigns -/

/-- The engine state components that `Game.play_round` and everything it
calls never reassign: the seated player list, the role sets, Hitler, the
previous-government set, and the `shot_hitler` flag. -/
def frame (g : GameState) :
    List Nat × List Nat × List Nat × Nat × List Nat × Bool :=
  (g.players, g.liberals, g.fascists, g.hitler, g.previous_government,
    g.shot_hitler)

theorem bind_ok {α β : Type} {x : Except GameError α}
    {f : α → Except GameError β} {b : β}
    (h : (x >>= f) = .ok b) : ∃ a, x = .ok a ∧ f a = .ok b := by
  cases x with
  | ok a => exact ⟨a, rfl, h⟩
  | error e => exact absurd h (by intro hc; exact Except.noConfusion hc)

theorem throw_ne_ok {α : Type} {e : GameError} {b : α} :
    (throw e : Except GameError α) ≠ .ok b := fun h => by
  rw [show (throw e : Except GameError α) = .error e from rfl] at h
  exact Except.noConfusion h

theorem pure_ok {α : Type} {a b : α}
    (h : (pure a : Except GameError α) = .ok b) : a = b := by
  rw [show (pure a : Except GameError α) = .ok a from rfl] at h
  exact Except.ok.inj h

theorem frame_setLast (g : GameState) (f : RData → RData) :
    frame (setLast g f) = frame g := rfl

theorem frame_update_policy_deck (g : GameState) :
    frame (update_policy_deck g) = frame g := by
  unfold update_policy_deck
  split_ifs <;> rfl

theorem frame_update_round_history (g : GameState) :
    frame (update_round_history g) = frame g := rfl

theorem frame_determine_next_president {g : GameState}
    {res : GameState × Nat × Nat}
    (h : determine_next_president g = .ok res) : frame res.1 = frame g := by
  unfold determine_next_president at h
  split at h
  · cases h; rfl
  · split at h
    · exact absurd h (by intro hc; exact Except.noConfusion hc)
    · cases h; rfl

theorem frame_solicit_intent_to_vote {agents : Nat → Agents} {g : GameState}
    {president : Nat} {g2 : GameState}
    (h : solicit_intent_to_vote agents g president = .ok g2) :
    frame g2 = frame g := by
  unfold solicit_intent_to_vote at h
  obtain ⟨declared, h1, h2⟩ := bind_ok h
  cases pure_ok h2
  rfl

theorem frame_select_chancellor {agents : Nat → Agents} {g : GameState}
    {president : Nat} {res : GameState × Nat × Int}
    (h : select_chancellor agents g president = .ok res) :
    frame res.1 = frame g := by
  unfold select_chancellor at h
  try dsimp only [] at h
  split at h
  · exact absurd h (by intro hc; exact Except.noConfusion hc)
  · split at h
    · exact absurd h (by intro hc; exact Except.noConfusion hc)
    · cases h; rfl

theorem frame_hold_election {agents : Nat → Agents} {g : GameState}
    {res : GameState × Bool}
    (h : hold_election agents g = .ok res) : frame res.1 = frame g := by
  unfold hold_election at h
  obtain ⟨results, h1, h2⟩ := bind_ok h
  cases pure_ok h2
  rfl

theorem frame_veto_phase {agents : Nat → Agents} {g : GameState}
    {president chancellor : Nat} {res : GameState × Bool}
    (h : veto_phase agents g president chancellor = .ok res) :
    frame res.1 = frame g := by
  unfold veto_phase at h
  split at h
  · split at h
    · exact absurd h (by intro hc; exact Except.noConfusion hc)
    · try dsimp only [] at h
      split at h
      · split at h
        · exact absurd h (by intro hc; exact Except.noConfusion hc)
        · cases h; rfl
      · cases h; rfl
  · cases h; rfl

theorem frame_hold_legislation_session {agents : Nat → Agents}
    {g : GameState} {president chancellor : Nat} {res : GameState × Policy}
    (h : hold_legislation_session agents g president chancellor = .ok res) :
    frame res.1 = frame g := by
  unfold hold_legislation_session at h
  try dsimp only [] at h
  obtain ⟨pd, -, h⟩ := bind_ok h
  try dsimp only [] at h
  obtain ⟨⟨pdc, sel⟩, -, h⟩ := bind_ok h
  try dsimp only [] at h
  obtain ⟨⟨gv, veto⟩, h3, h⟩ := bind_ok h
  try dsimp only [] at h
  obtain ⟨claimed, -, h⟩ := bind_ok h
  try dsimp only [] at h
  obtain ⟨cc, -, h⟩ := bind_ok h
  have hgv : frame gv = frame g := frame_veto_phase h3
  cases pure_ok h
  cases veto <;> cases sel <;> exact hgv

theorem frame_investigate_player {agents : Nat → Agents} {g : GameState}
    {president : Nat} {g2 : GameState}
    (h : investigate_player agents g president = .ok g2) :
    frame g2 = frame g := by
  unfold investigate_player at h
  try dsimp only [] at h
  obtain ⟨iid, -, h⟩ := bind_ok h
  try dsimp only [] at h
  obtain ⟨idn, -, h⟩ := bind_ok h
  try dsimp only [] at h
  obtain ⟨cl, -, h⟩ := bind_ok h
  cases pure_ok h
  rfl

theorem frame_declare_special_election {agents : Nat → Agents}
    {g : GameState} {president : Nat} {g2 : GameState}
    (h : declare_special_election agents g president = .ok g2) :
    frame g2 = frame g := by
  unfold declare_special_election at h
  try dsimp only [] at h
  obtain ⟨sid, -, h⟩ := bind_ok h
  try dsimp only [] at h
  split at h
  · exact absurd h throw_ne_ok
  · split at h
    · exact absurd h throw_ne_ok
    · cases pure_ok h; rfl

theorem frame_execute_player {agents : Nat → Agents} {g : GameState}
    {president : Nat} {g2 : GameState}
    (h : execute_player agents g president = .ok g2) :
    frame g2 = frame g := by
  unfold execute_player at h
  try dsimp only [] at h
  obtain ⟨eid, -, h⟩ := bind_ok h
  try dsimp only [] at h
  split at h
  · exact absurd h throw_ne_ok
  · cases pure_ok h; rfl

theorem frame_executive_action {agents : Nat → Agents} {g : GameState}
    {president : Nat} {g2 : GameState}
    (h : executive_action agents g president = .ok g2) :
    frame g2 = frame g := by
  unfold executive_action at h
  split_ifs at h
  · exact frame_investigate_player h
  · exact frame_declare_special_election h
  · exact frame_execute_player h
  all_goals first
  | (cases pure_ok h; rfl)
  | exact absurd h throw_ne_ok

theorem frame_execute_anarchy {g : GameState} {g2 : GameState}
    (h : execute_anarchy g = .ok g2) : frame g2 = frame g := by
  unfold execute_anarchy at h
  split at h
  · exact absurd h (by intro hc; exact Except.noConfusion hc)
  · try dsimp only [] at h
    split at h <;> (cases h; rfl)

/-- No component of `frame` — in particular `players`,
`previous_government` and `shot_hitler` — is ever reassigned by a
completed round. -/
theorem frame_play_round {agents : Nat → Agents} {g : GameState}
    {g2 : GameState} (h : play_round agents g = .ok g2) :
    frame g2 = frame g := by
  unfold play_round at h
  try dsimp only [] at h
  obtain ⟨⟨ga, president, pid⟩, h1, h⟩ := bind_ok h
  try dsimp only [] at h
  obtain ⟨gb, h2, h⟩ := bind_ok h
  try dsimp only [] at h
  obtain ⟨⟨gc, chancellor, cid⟩, h3, h⟩ := bind_ok h
  try dsimp only [] at h
  obtain ⟨⟨gd, succ⟩, h4, h⟩ := bind_ok h
  try dsimp only [] at h
  have hfa : frame ga = frame g := by
    have := frame_determine_next_president h1
    rwa [frame_update_round_history, frame_update_policy_deck] at this
  have hfb : frame gb = frame g := (frame_solicit_intent_to_vote h2).trans hfa
  have hfc : frame gc = frame g := (frame_select_chancellor h3).trans hfb
  have hfd : frame gd = frame g := (frame_hold_election h4).trans hfc
  split at h
  · split at h
    · cases pure_ok h
      exact hfd
    · obtain ⟨⟨ge, pol⟩, h5, h⟩ := bind_ok h
      try dsimp only [] at h
      have hfe : frame ge = frame g :=
        (frame_hold_legislation_session h5).trans hfd
      split at h
      · exact (frame_executive_action h).trans hfe
      · cases pure_ok h
        exact hfe
  · split at h
    · have := frame_execute_anarchy h
      exact this.trans hfd
    · cases pure_ok h
      exact hfd

/-! ### C6: election majority -/

theorem holdElectionVotes_spec (agents : Nat → Agents) (g : GameState) :
    ∀ (ps : List Nat) (results : List (Nat × Bool)),
      holdElectionVotes agents g ps = .ok results →
      results.map Prod.fst =
        (ps.filter (fun p => p ∉ g.executed_players)).map
          (fun p => g.players.indexOf p) := by
  intro ps
  induction ps with
  | nil =>
    intro results h
    simp only [holdElectionVotes] at h
    cases h
    rfl
  | cons p rest ih =>
    intro results h
    simp only [holdElectionVotes] at h
    by_cases hex : p ∈ g.executed_players
    · rw [if_pos hex] at h
      rw [List.filter_cons_of_neg (by simpa using hex)]
      exact ih results h
    · rw [if_neg hex] at h
      cases hor : (agents p).vote_on_government
          (get_player_percieved_game_state g p) with
      | error m =>
        rw [hor] at h
        exact absurd h (by intro hc; exact Except.noConfusion hc)
      | ok v =>
        rw [hor] at h
        obtain ⟨restRes, h1, h2⟩ := bind_ok h
        cases h2
        rw [List.filter_cons_of_pos (by simpa using hex)]
        simp only [List.map_cons]
        exact congrArg (List.cons (g.players.indexOf p)) (ih restRes h1)

/-- C6: an election succeeds exactly when the yes votes of the living
players strictly exceed half of the full seated player count
(`len(self.players)`, fixed at game start and never reassigned by a
round); executed players cast no vote but stay in the denominator. -/
theorem c6_election_strict_majority_of_seated :
    (∀ (agents : Nat → Agents) (g g2 : GameState) (b : Bool),
      hold_election agents g = .ok (g2, b) →
      ∃ results,
        holdElectionVotes agents g g.players = .ok results ∧
        results.map Prod.fst =
          (g.players.filter (fun p => p ∉ g.executed_players)).map
            (fun p => g.players.indexOf p) ∧
        (b = true ↔ g.players.length < 2 * (results.map Prod.snd).count true)) ∧
    (∀ (agents : Nat → Agents) (g g2 : GameState),
      play_round agents g = .ok g2 → g2.players = g.players) := by
  constructor
  · intro agents g g2 b h
    unfold hold_election at h
    obtain ⟨results, h1, h2⟩ := bind_ok h
    try dsimp only [] at h2
    cases pure_ok h2
    exact ⟨results, h1, holdElectionVotes_spec agents g g.players results h1,
      by simp⟩
  · intro agents g g2 h
    exact congrArg (fun t => t.1) (frame_play_round h)

/-- A benign agent used by concrete runs: votes yes, nominates player 1,
claims honestly-shaped values, never vetoes, targets player 0. -/
def baseAgents : Agents :=
  { select_chancellor := fun _ => .ok 1
    intent_to_vote_on_government := fun _ => .ok (some true)
    vote_on_government := fun _ => .ok true
    select_policy_to_discard_as_president := fun _ => .ok Policy.LIBERAL
    select_policy_to_discard_as_chancellor := fun _ => .ok Policy.FASCIST
    veto_legislation := fun _ => .ok false
    claimed_policy_to_discard_as_president := fun _ => .ok (0, Policy.LIBERAL)
    claimed_policy_to_discard_as_chancellor := fun _ => .ok Policy.LIBERAL
    select_player_to_investigate := fun _ => .ok 0
    claimed_player_investigation_result := fun _ => .ok Allegiance.LIBERAL
    select_special_election_president := fun _ => .ok 0
    select_player_to_execute := fun _ => .ok 0 }

/-- A 5-player game: liberals 0-2, fascists 3-4, Hitler 3, an
all-liberal deck. -/
def g5 : GameState :=
  gameInit [0, 1, 2] [3, 4] 3 (List.replicate 17 Policy.LIBERAL)
    [0, 1, 2, 3, 4] []

/-- C6 witness fixture: player 4 already executed. -/
def gC6 : GameState := { g5 with executed_players := [4] }

def c6res : GameState × Bool :=
  match hold_election (fun _ => baseAgents) gC6 with
  | .ok r => r
  | .error _ => (gC6, false)

/-- Witness for C6: four living yes votes out of five seated players. -/
theorem c6_election_strict_majority_witness :
    ∃ results,
      holdElectionVotes (fun _ => baseAgents) gC6 gC6.players = .ok results ∧
      results.map Prod.fst =
        (gC6.players.filter (fun p => p ∉ gC6.executed_players)).map
          (fun p => gC6.players.indexOf p) ∧
      (c6res.2 = true ↔ gC6.players.length < 2 * (results.map Prod.snd).count true) :=
  c6_election_strict_majority_of_seated.1 (fun _ => baseAgents) gC6
    c6res.1 c6res.2 rfl

/-! ### C1-C5: concrete runs exhibiting engine behaviour -/

/-- The data of the last round record, for decidable projections. -/
def lastData (g : GameState) : Option RData :=
  (g.round_history.getLast?).map RoundRecord.data

/-- C1 fixture: fascist tally 3, all-fascist deck, the president will
execute player 3 (Hitler). -/
def gC1 : GameState :=
  { g5 with
    fascist_policies_passed := 3
    policy_deck := List.replicate 17 Policy.FASCIST }

def agentsC1 : Nat → Agents := fun _ =>
  { baseAgents with select_player_to_execute := fun _ => .ok 3 }

/-- C1: executing Hitler does not end the game.  In the round below the
election succeeds, a fascist policy is enacted (tally 4), and the
president executes player 3 — Hitler.  The engine records the execution
but `shot_hitler` stays `false` (no code path ever sets it), so
`determine_if_winner` still reports no winner and the game would play
further rounds, contradicting the claimed (LIBERAL, "Shot Hitler")
termination. -/
theorem c1_hitler_execution_not_terminal :
    (okState (play_round agentsC1 gC1)).map (fun g =>
        (g.executed_players, g.hitler, g.shot_hitler,
          determine_if_winner g)) =
      some ([3], 3, false, (none, none)) := by decide

/-- C2 fixture: fascist tally 5 (veto window open), all-fascist deck;
both chancellor and president agree to veto; the execute target is
player 2. -/
def gC2 : GameState :=
  { g5 with
    fascist_policies_passed := 5
    policy_deck := List.replicate 17 Policy.FASCIST }

def agentsC2 : Nat → Agents := fun _ =>
  { baseAgents with
    veto_legislation := fun _ => .ok true
    select_player_to_execute := fun _ => .ok 2 }

/-- C2: an agreed veto leaves both tallies unchanged, records no
enacted policy, and both public claims are still made — but
`hold_legislation_session` returns the (unenacted) fascist policy, so
`play_round` still dispatches the executive action: player 2 is
executed in the vetoed round, contradicting the claim that no executive
action is dispatched and the executed-player set is unchanged. -/
theorem c2_veto_still_dispatches_executive_action :
    (okState (play_round agentsC2 gC2)).map (fun g =>
        (g.fascist_policies_passed, g.liberal_policies_passed,
          g.executed_players, g.special_election_next_president,
          (lastData g).map (fun d =>
            (d.chancellor_veto, d.president_veto, d.selected_policy,
              d.executed_player, d.president_claimed_discarded_policy,
              d.chancellor_claimed_discarded_policy)))) =
      some (5, 0, [2], none,
        some (some true, some true, none, some 2, some Policy.LIBERAL,
          some Policy.LIBERAL)) := by rfl

/-- C3 fixture: agents vote yes exactly in round 3 (the view length is
the current round number). -/
def agentsC3 : Nat → Agents := fun _ =>
  { baseAgents with
    vote_on_government := fun view => .ok (decide (view.length = 3)) }

def c3run3 : Except GameError GameState := do
  let g1 ← play_round agentsC3 g5
  let g2 ← play_round agentsC3 g1
  play_round agentsC3 g2

def c3run4 : Except GameError GameState := do
  let g3 ← c3run3
  play_round agentsC3 g3

/-- C3: the engine's anarchy counter is never reset.  Elections fail in
rounds 1 and 2 (counter 2), round 3's election succeeds and enacts a
liberal policy — but the counter stays at 2 instead of resetting to 0;
round 4's single failed election then pushes the counter to 3 and
triggers a forced anarchy draw after only one consecutive failure, and
the counter remains 3 after the draw. -/
theorem c3_anarchy_counter_never_reset :
    ((okState c3run3).map (fun g =>
        (g.anarchy_counter, g.liberal_policies_passed,
          (lastData g).map (fun d => d.successful_election))) =
      some (2, 1, some (some true))) ∧
    ((okState c3run4).map (fun g =>
        (g.anarchy_counter, g.liberal_policies_passed,
          (lastData g).map (fun d =>
            (d.successful_election, d.anarchy_result)))) =
      some (3, 2, some (some false, some Policy.LIBERAL))) := by decide

/-- C4 fixture: 7 players, liberals 0-3, fascists 4-6, Hitler 4,
all-liberal deck; the president always nominates player 2; everyone
votes yes. -/
def gC4 : GameState :=
  gameInit [0, 1, 2, 3] [4, 5, 6] 4 (List.replicate 17 Policy.LIBERAL)
    [0, 1, 2, 3, 4, 5, 6] []

def agentsC4 : Nat → Agents := fun _ =>
  { baseAgents with select_chancellor := fun _ => .ok 2 }

def c4run : Except GameError GameState := do
  let g1 ← play_round agentsC4 gC4
  play_round agentsC4 g1

/-- C4: the previous successful government is never excluded, because
`previous_government` is never assigned after construction.  Round 1
elects president 0 and chancellor 2 successfully; with 7 living players
the claim requires round 2's chancellor candidates to exclude 0 and 2,
but the engine offers every player except round 2's president (1) —
including both members of the previous government — and
`previous_government` is still empty. -/
theorem c4_previous_government_never_excluded :
    (okState c4run).map (fun g =>
        (g.previous_government,
          g.round_history.map (fun r =>
            (r.data.president, r.data.chancellor,
              r.data.successful_election)),
          (lastData g).map (fun d =>
            d.declared_election_intent.map (List.map Prod.fst)))) =
      some ([],
        [(some 0, some 2, some true), (some 1, some 2, some true)],
        some (some [0, 2, 3, 4, 5, 6])) := by rfl

/-- C5 fixtures. -/
def agentsC5a : Nat → Agents := fun _ =>
  { baseAgents with select_chancellor := fun _ => .ok 7 }

def gC5b : GameState :=
  { g5 with policy_deck := List.replicate 17 Policy.FASCIST }

def agentsC5b : Nat → Agents := fun _ =>
  { baseAgents with
    claimed_player_investigation_result := fun _ => .error "boom" }

def gC5c : GameState :=
  { g5 with
    policy_deck :=
      Policy.FASCIST :: List.replicate 16 Policy.LIBERAL }

def agentsC5c : Nat → Agents := fun _ =>
  { baseAgents with
    select_policy_to_discard_as_president := fun _ => .error "pres boom" }

/-- C5: the fault boundary is not total.  (a) `select_chancellor`
returning 7 in a 5-player game raises an `IndexError` at
`self.players[chancellor_id]`, outside the `try` block, so the game
does not end with a team win — the exception escapes `play_game`.
(b) `claimed_player_investigation_result` raising is not wrapped either
and likewise escapes.  (c) By contrast a fault inside a wrapped call
(the president's discard choice raising) is converted into a win for
the opposing team as the claim describes. -/
theorem c5_fault_boundary_has_gaps :
    (play_game agentsC5a 10 g5 =
      .error (.uncaught "IndexError: list index out of range")) ∧
    (play_game agentsC5b 10 gC5b = .error (.uncaught "boom")) ∧
    (play_game agentsC5c 10 gC5c =
      .ok (some (some Allegiance.FASCIST,
        some "Exception while selecting policies as President"))) := by decide

/-! ### C9: the perceived state is an independent deep copy -/

/-- The per-record annotation `get_player_percieved_game_state` applies
to each deep-copied record: set `your_player_id` on the copy. -/
def annotate (pid : Nat) (r : RoundRecord) : RoundRecord :=
  r.withData { r.data with your_player_id := some pid }

/-- Reference-semantics model of the round history: records live in a
store addressed by naturals; the engine holds the addresses of its
`round_history` records, and `next` is the allocation frontier. -/
structure HeapGame where
  store : Nat → RoundRecord
  histAddrs : List Nat
  next : Nat

/-- Mutating (or allocating) one record cell. -/
def hwrite (store : Nat → RoundRecord) (a : Nat) (r : RoundRecord) :
    Nat → RoundRecord :=
  fun x => if x = a then r else store x

/-- The loop of `get_player_percieved_game_state` under reference
semantics: for each history record, `deepcopy` allocates a fresh cell
holding the annotated copy. -/
def copyRecords (pid : Nat) :
    (Nat → RoundRecord) → List Nat → Nat → ((Nat → RoundRecord) × List Nat)
  | store, [], _ => (store, [])
  | store, a :: rest, next =>
    let store1 := hwrite store next (annotate pid (store a))
    let res := copyRecords pid store1 rest (next + 1)
    (res.1, next :: res.2)

/-- `get_player_percieved_game_state` under reference semantics:
returns the addresses of the copies and the extended heap. -/
def get_view_heap (hg : HeapGame) (pid : Nat) : List Nat × HeapGame :=
  let res := copyRecords pid hg.store hg.histAddrs hg.next
  (res.2,
    { store := res.1
      histAddrs := hg.histAddrs
      next := hg.next + hg.histAddrs.length })

/-- Heap well-formedness: every engine record address is allocated. -/
def HeapGame.WF (hg : HeapGame) : Prop := ∀ a ∈ hg.histAddrs, a < hg.next

theorem copyRecords_spec (pid : Nat) :
    ∀ (addrs : List Nat) (store : Nat → RoundRecord) (next : Nat),
      (∀ a ∈ addrs, a < next) →
      (∀ x, x < next → (copyRecords pid store addrs next).1 x = store x) ∧
      (∀ v ∈ (copyRecords pid store addrs next).2, next ≤ v) ∧
      (copyRecords pid store addrs next).2.map
          (copyRecords pid store addrs next).1 =
        (addrs.map store).map (annotate pid) := by
  intro addrs
  induction addrs with
  | nil =>
    intro store next hwf
    exact ⟨fun x _ => rfl, fun v hv => absurd hv (List.not_mem_nil v), rfl⟩
  | cons a rest ih =>
    intro store next hwf
    have ha : a < next := hwf a (List.mem_cons_self a rest)
    have hrest : ∀ b ∈ rest, b < next + 1 := fun b hb =>
      Nat.lt_succ_of_lt (hwf b (List.mem_cons_of_mem a hb))
    obtain ⟨ih1, ih2, ih3⟩ :=
      ih (hwrite store next (annotate pid (store a))) (next + 1) hrest
    refine ⟨?_, ?_, ?_⟩
    · intro x hx
      have hxne : x ≠ next := Nat.ne_of_lt hx
      have := ih1 x (Nat.lt_succ_of_lt hx)
      simp only [copyRecords]
      rw [this, hwrite, if_neg hxne]
    · intro v hv
      simp only [copyRecords, List.mem_cons] at hv
      cases hv with
      | inl hv => omega
      | inr hv => have := ih2 v hv; omega
    · simp only [copyRecords, List.map_cons]
      have hhead :
          (copyRecords pid (hwrite store next (annotate pid (store a)))
              rest (next + 1)).1 next =
            annotate pid (store a) := by
        rw [ih1 next (Nat.lt_succ_self next), hwrite, if_pos rfl]
      rw [hhead, ih3]
      have hmaps : rest.map (hwrite store next (annotate pid (store a))) =
          rest.map store := by
        apply List.map_congr_left
        intro b hb
        have hbne : b ≠ next :=
          Nat.ne_of_lt (hwf b (List.mem_cons_of_mem a hb))
        rw [hwrite, if_neg hbne]
      rw [hmaps]

/-- C9: the perceived state is an independent deep copy of the record
chain, annotated with the requesting player's id, and contains exactly
the rounds played so far.  Under the reference-semantics model:
building a view does not change any engine record; all view addresses
are fresh (outside the engine's history); writing anything at a view
address still leaves every engine record unchanged; the view has
exactly one copy per engine record, each equal to the engine's record
annotated with the player's id.  At the value level the engine function
is exactly that annotated copy of the whole current history. -/
theorem c9_view_independent_deep_copy (hg : HeapGame) (pid : Nat)
    (hwf : hg.WF) :
    (∀ a ∈ hg.histAddrs, (get_view_heap hg pid).2.store a = hg.store a) ∧
    (∀ v ∈ (get_view_heap hg pid).1, v ∉ hg.histAddrs) ∧
    (∀ v ∈ (get_view_heap hg pid).1, ∀ r : RoundRecord,
      ∀ a ∈ hg.histAddrs,
        hwrite (get_view_heap hg pid).2.store v r a = hg.store a) ∧
    ((get_view_heap hg pid).1.length = hg.histAddrs.length) ∧
    ((get_view_heap hg pid).1.map (get_view_heap hg pid).2.store =
      (hg.histAddrs.map hg.store).map (annotate pid)) ∧
    (∀ (g : GameState) (player : Nat),
      get_player_percieved_game_state g player =
        g.round_history.map (annotate (g.players.indexOf player))) := by
  obtain ⟨h1, h2, h3⟩ := copyRecords_spec pid hg.histAddrs hg.store hg.next hwf
  have hfresh : ∀ v ∈ (get_view_heap hg pid).1, v ∉ hg.histAddrs := by
    intro v hv hmem
    have := h2 v hv
    have := hwf v hmem
    omega
  refine ⟨?_, hfresh, ?_, ?_, h3, fun g player => rfl⟩
  · intro a ha
    exact h1 a (hwf a ha)
  · intro v hv r a ha
    have hane : a ≠ v := by
      intro hc
      exact hfresh v hv (hc ▸ ha)
    rw [hwrite, if_neg hane]
    exact h1 a (hwf a ha)
  · have := congrArg List.length h3
    simpa using this

/-- Witness for C9: a two-round heap. -/
theorem c9_view_independent_witness :
    (∀ a ∈ [0, 1],
      (get_view_heap ⟨fun _ => RoundRecord.mk
          { number_of_players := 5, fascists := [3, 4], hitler := 3 } none,
        [0, 1], 2⟩ 0).2.store a =
        (fun _ => RoundRecord.mk
          { number_of_players := 5, fascists := [3, 4], hitler := 3 } none) a) ∧
    (∀ v ∈ (get_view_heap ⟨fun _ => RoundRecord.mk
        { number_of_players := 5, fascists := [3, 4], hitler := 3 } none,
      [0, 1], 2⟩ 0).1, v ∉ [0, 1]) ∧
    (∀ v ∈ (get_view_heap ⟨fun _ => RoundRecord.mk
        { number_of_players := 5, fascists := [3, 4], hitler := 3 } none,
      [0, 1], 2⟩ 0).1, ∀ r : RoundRecord, ∀ a ∈ [0, 1],
        hwrite (get_view_heap ⟨fun _ => RoundRecord.mk
            { number_of_players := 5, fascists := [3, 4], hitler := 3 } none,
          [0, 1], 2⟩ 0).2.store v r a =
          (fun _ => RoundRecord.mk
            { number_of_players := 5, fascists := [3, 4], hitler := 3 } none) a) ∧
    ((get_view_heap ⟨fun _ => RoundRecord.mk
        { number_of_players := 5, fascists := [3, 4], hitler := 3 } none,
      [0, 1], 2⟩ 0).1.length = ([0, 1] : List Nat).length) ∧
    ((get_view_heap ⟨fun _ => RoundRecord.mk
        { number_of_players := 5, fascists := [3, 4], hitler := 3 } none,
      [0, 1], 2⟩ 0).1.map (get_view_heap ⟨fun _ => RoundRecord.mk
        { number_of_players := 5, fascists := [3, 4], hitler := 3 } none,
      [0, 1], 2⟩ 0).2.store =
      (([0, 1] : List Nat).map (fun _ => RoundRecord.mk
        { number_of_players := 5, fascists := [3, 4], hitler := 3 } none)).map
        (annotate 0)) ∧
    (∀ (g : GameState) (player : Nat),
      get_player_percieved_game_state g player =
        g.round_history.map (annotate (g.players.indexOf player))) :=
  c9_view_independent_deep_copy
    ⟨fun _ => RoundRecord.mk
      { number_of_players := 5, fascists := [3, 4], hitler := 3 } none,
      [0, 1], 2⟩ 0 (by intro a ha; fin_cases ha <;> decide)

end SecretHitler
